import Mathlib

/-!
Verification of the authentication session-management core of the
ai-code-documenter repository (Express/Mongoose backend plus a React client).

The embedding translates the relevant JavaScript sources:
  * `server/controllers/authController.js` (two concatenated snapshots, called
    V1 and V2 below) and the third snapshot in `unnamed/part_016` (called P16),
  * `server/middleware/auth.js`,
  * `src/client/src/lib/api.js` (the axios single-flight refresh interceptor).

JWTs are modelled symbolically: `jwt.sign` is deterministic in the payload and
the issue time, so a signed token is identified with its kind, its user id, its
`iat` and its `exp`; any string that our server did not sign is `garbage` and
never verifies.  Mongo is modelled as an association list from user ids to user
records; `express-validator` middleware (the `ensureValid` helper) is outside
the model, which starts where the handler bodies read `req.body`.
-/

namespace AuthCore

/-- Token kinds: the two signing secrets (`ACCESS_SECRET`, `REFRESH_SECRET`)
are distinct, so tokens of the two kinds never verify interchangeably. -/
inductive TokKind
  | access
  | refresh
deriving DecidableEq

/-- A JWT as the server observes it.  `signed` tokens carry the payload id,
the issue time `iat`, and the expiry `exp` (jsonwebtoken embeds both);
`garbage` stands for any string not produced by our signing functions. -/
inductive Tok
  | signed (kind : TokKind) (uid : Nat) (iat : Nat) (exp : Nat)
  | garbage (s : String)
deriving DecidableEq

/-- ACCESS_TTL is the default "15m", in seconds. -/
def accessTTL : Nat := 15 * 60

/-- REFRESH_TTL is "7d", in seconds. -/
def refreshTTL : Nat := 7 * 24 * 60 * 60

/-- jwt.sign with the access secret: payload id plus `expiresIn` = ACCESS_TTL. -/
def signAccess (uid now : Nat) : Tok :=
  Tok.signed TokKind.access uid now (now + accessTTL)

/-- jwt.sign with the refresh secret: payload id plus `expiresIn` = REFRESH_TTL. -/
def signRefresh (uid now : Nat) : Tok :=
  Tok.signed TokKind.refresh uid now (now + refreshTTL)

/-- jwt.verify against the secret of kind `k` at clock time `now`: succeeds
with the payload id iff the token was signed with that secret and is not
expired (jsonwebtoken rejects when the clock reaches `exp`). -/
def verify (t : Tok) (k : TokKind) (now : Nat) : Option Nat :=
  match t with
  | Tok.signed k2 uid _ e => if k2 = k ∧ now < e then some uid else none
  | Tok.garbage _ => none

/-- jwt.decode: payload extraction without any signature or expiry check. -/
def decode (t : Tok) : Option Nat :=
  match t with
  | Tok.signed _ uid _ _ => some uid
  | Tok.garbage _ => none

/-- A bcrypt hash, symbolically: `bcrypt.compare pw h` succeeds exactly when
`h` is the hash of `pw`. -/
inductive Hash
  | bcrypt (pw : String)
deriving DecidableEq

/-- bcrypt.compare. -/
def bcryptCompare (pw : String) (h : Hash) : Bool :=
  match h with
  | Hash.bcrypt pw2 => pw = pw2

/-- The fields of the Mongoose User document that the auth core reads or
writes (`server/models/User.js`). -/
structure UserRec where
  username : String
  email : String
  passwordHash : Hash
  refreshToken : Option Tok := none
  lastLogin : Option Nat := none
deriving DecidableEq

/-- The users collection: an association list from `_id` to the document. -/
abbrev Store := List (Nat × UserRec)

/-- User.findById. -/
def findById : Store → Nat → Option UserRec
  | [], _ => none
  | (k, v) :: rest, uid => if k = uid then some v else findById rest uid

/-- User.findOne on the email field. -/
def findByEmail : Store → String → Option (Nat × UserRec)
  | [], _ => none
  | (k, v) :: rest, e => if v.email = e then some (k, v) else findByEmail rest e

/-- user.save after mutating the document with id `uid` to `u`. -/
def updateUser : Store → Nat → UserRec → Store
  | [], _, _ => []
  | (k, v) :: rest, uid, u =>
      if k = uid then (uid, u) :: updateUser rest uid u
      else (k, v) :: updateUser rest uid u

/-- The refresh token currently stored for `uid`, if the user exists. -/
def rtOf (s : Store) (uid : Nat) : Option Tok :=
  (findById s uid).bind (fun u => u.refreshToken)

/-- Cookie mutations a handler performs on the `rt` cookie in its response:
`res.cookie("rt", value, rtCookie)`, `res.clearCookie("rt", ...)`, and the
fallback `res.cookie("rt", "", \x7b expires: new Date(0) \x7d)`. -/
inductive CookieOp
  | setTok (t : Tok)
  | clear
  | setEmptyExpired
deriving DecidableEq

/-- The observable HTTP response of a handler: status, the JSON message, the
`success`/`ok` flag when the body carries one, the access token and public
user projection when present, the `rt` cookie mutations, and the `stack`
field that the V2/P16 `handleError` can attach. -/
structure Resp where
  status : Nat
  message : String
  ok : Bool := false
  token : Option Tok := none
  userInfo : Option (Nat × String × String) := none
  cookies : List CookieOp := []
  errStack : Option String := none
deriving DecidableEq

/-! ## V1 controllers (first snapshot in `server/controllers/authController.js`) -/

/-- POST /api/auth/register, V1.  Creates the user (Mongo supplies the fresh
id `newId`), signs both tokens, overwrites `user.refreshToken`, sets the `rt`
cookie and returns 201 with the access token and the public projection. -/
def registerUser (s : Store) (username email password : String)
    (newId now : Nat) : Store × Resp :=
  if username = "" ∨ email = "" ∨ password = "" then
    (s, { status := 400, message := "All fields are required" })
  else
    match findByEmail s email with
    | some _ => (s, { status := 409, message := "User already exists" })
    | none =>
      let u0 : UserRec :=
        { username := username, email := email, passwordHash := Hash.bcrypt password }
      let s1 := s ++ [(newId, u0)]
      let access := signAccess newId now
      let refresh := signRefresh newId now
      let s2 := updateUser s1 newId { u0 with refreshToken := some refresh }
      (s2, { status := 201, message := "Account created successfully",
             token := some access, userInfo := some (newId, username, email),
             cookies := [CookieOp.setTok refresh] })

/-- POST /api/auth/login, V1.  Looks up by email, compares with bcrypt, and on
success overwrites `user.refreshToken` with a freshly signed value, sets the
cookie and returns the access token.  Both failure branches return the same
400 response with the generic message. -/
def loginUser (s : Store) (email password : String) (now : Nat) : Store × Resp :=
  match findByEmail s email with
  | none => (s, { status := 400, message := "Invalid credentials" })
  | some (uid, u) =>
    if bcryptCompare password u.passwordHash then
      let access := signAccess uid now
      let refresh := signRefresh uid now
      (updateUser s uid { u with refreshToken := some refresh },
       { status := 200, message := "Login successful", token := some access,
         userInfo := some (uid, u.username, u.email),
         cookies := [CookieOp.setTok refresh] })
    else (s, { status := 400, message := "Invalid credentials" })

/-- POST /api/auth/refresh, V1.  Reads the `rt` cookie, verifies it against
the refresh secret (401 without any cookie mutation on failure), requires the
stored `user.refreshToken` to equal the presented token, then rotates. -/
def refreshToken (s : Store) (cookie : Option Tok) (now : Nat) : Store × Resp :=
  match cookie with
  | none => (s, { status := 401, message := "No refresh token" })
  | some t =>
    match verify t TokKind.refresh now with
    | none => (s, { status := 401, message := "Invalid refresh token" })
    | some uid =>
      match findById s uid with
      | none => (s, { status := 401, message := "Refresh token mismatch" })
      | some u =>
        if u.refreshToken = some t then
          let newRefresh := signRefresh uid now
          (updateUser s uid { u with refreshToken := some newRefresh },
           { status := 200, message := "", token := some (signAccess uid now),
             cookies := [CookieOp.setTok newRefresh] })
        else (s, { status := 401, message := "Refresh token mismatch" })

/-- Server-side effect of `User.findByIdAndUpdate(id, set refreshToken null)`. -/
def clearRefresh (s : Store) (uid : Nat) : Store :=
  match findById s uid with
  | some u => updateUser s uid { u with refreshToken := none }
  | none => s

/-- POST /api/auth/logout, V1.  Best-effort decode of the cookie, best-effort
DB write (`dbThrows` models that write throwing, which lands in the catch
block), and in every path the handler clears the cookie twice and returns
200 with an ok body. -/
def logoutUser (s : Store) (cookie : Option Tok) (dbThrows : Bool) : Store × Resp :=
  match cookie with
  | none =>
    (s, { status := 200, message := "Logout successful", ok := true,
          cookies := [CookieOp.clear, CookieOp.setEmptyExpired] })
  | some t =>
    match decode t with
    | none =>
      (s, { status := 200, message := "Logout successful", ok := true,
            cookies := [CookieOp.clear, CookieOp.setEmptyExpired] })
    | some uid =>
      if dbThrows then
        (s, { status := 200, message := "Logged out despite errors", ok := true,
              cookies := [CookieOp.clear, CookieOp.setEmptyExpired] })
      else
        (clearRefresh s uid,
         { status := 200, message := "Logout successful", ok := true,
           cookies := [CookieOp.clear, CookieOp.setEmptyExpired] })

/-- The V1 `handleError` helper: logs server-side and always sends the
generic 500 body, in every environment. -/
def handleError (_tag : String) (_e : Unit) : Resp :=
  { status := 500, message := "Server error" }

/-! ## V2 and P16 variants -/

/-- What a caught exception carries: the `message` and `stack` properties of
the Error object. -/
structure ErrInfo where
  message : String
  stack : String
deriving DecidableEq

/-- The V2 `handleError` (second snapshot): generic message only when
`isProd`; otherwise it sends `err.message` and spreads `err.stack` into the
500 body. -/
def handleErrorV2 (isProd : Bool) (e : ErrInfo) : Resp :=
  { status := 500,
    message := if isProd then "Server error" else e.message,
    errStack := if isProd then none else some e.stack }

/-- The P16 `handleError` (`unnamed/part_016`): same shape as V2. -/
def handleErrorP16 (isProd : Bool) (e : ErrInfo) : Resp :=
  { status := 500,
    message := if isProd then "Server error" else e.message,
    errStack := if isProd then none else some e.stack }

/-- POST /api/auth/refresh, V2 (second snapshot).  Differs from V1 in that a
failed `jwt.verify` also clears the `rt` cookie, and in the body texts. -/
def refreshTokenV2 (s : Store) (cookie : Option Tok) (now : Nat) : Store × Resp :=
  match cookie with
  | none => (s, { status := 401, message := "No refresh token provided" })
  | some t =>
    match verify t TokKind.refresh now with
    | none =>
      (s, { status := 401, message := "Invalid or expired refresh token",
            cookies := [CookieOp.clear] })
    | some uid =>
      match findById s uid with
      | none => (s, { status := 401, message := "Invalid refresh token" })
      | some u =>
        if u.refreshToken = some t then
          let newRefresh := signRefresh uid now
          (updateUser s uid { u with refreshToken := some newRefresh },
           { status := 200, message := "Token refreshed successfully", ok := true,
             token := some (signAccess uid now),
             cookies := [CookieOp.setTok newRefresh] })
        else (s, { status := 401, message := "Invalid refresh token" })

/-- POST /api/auth/refresh, P16 (`unnamed/part_016`).  Clears the cookie on a
failed verify; user-not-found and stored-token mismatch are separate 401
messages. -/
def refreshTokenP16 (s : Store) (cookie : Option Tok) (now : Nat) : Store × Resp :=
  match cookie with
  | none => (s, { status := 401, message := "No refresh token provided" })
  | some t =>
    match verify t TokKind.refresh now with
    | none =>
      (s, { status := 401, message := "Invalid or expired refresh token",
            cookies := [CookieOp.clear] })
    | some uid =>
      match findById s uid with
      | none => (s, { status := 401, message := "User not found" })
      | some u =>
        if u.refreshToken = some t then
          let newRefresh := signRefresh uid now
          (updateUser s uid { u with refreshToken := some newRefresh },
           { status := 200, message := "Token refreshed successfully", ok := true,
             token := some (signAccess uid now),
             cookies := [CookieOp.setTok newRefresh] })
        else (s, { status := 401, message := "Token mismatch" })

/-- ASCII lower-casing of one character, as JavaScript toLowerCase acts on
the ASCII range. -/
def lowerChar (c : Char) : Char :=
  if 65 ≤ c.toNat ∧ c.toNat ≤ 90 then Char.ofNat (c.toNat + 32) else c

/-- The JavaScript `toLowerCase()` over the character list. -/
def jsToLower (s : String) : String :=
  ⟨s.data.map lowerChar⟩

/-- The JavaScript `trim()`: strip leading and trailing whitespace. -/
def jsTrim (s : String) : String :=
  ⟨((s.data.dropWhile Char.isWhitespace).reverse.dropWhile Char.isWhitespace).reverse⟩

/-- POST /api/auth/login, P16.  Guards on non-empty fields, looks up by the
lower-cased trimmed email, and returns the same 401 body whether the lookup
or the bcrypt comparison fails.  On success it also stamps `lastLogin`. -/
def loginUserP16 (s : Store) (email password : String) (now : Nat) : Store × Resp :=
  if jsTrim email = "" ∨ password = "" then
    (s, { status := 400, message := "Email and password are required" })
  else
    match findByEmail s (jsTrim (jsToLower email)) with
    | none => (s, { status := 401, message := "Invalid credentials" })
    | some (uid, u) =>
      if bcryptCompare password u.passwordHash then
        let access := signAccess uid now
        let refresh := signRefresh uid now
        (updateUser s uid { u with refreshToken := some refresh, lastLogin := some now },
         { status := 200, message := "Login successful", ok := true,
           token := some access, userInfo := some (uid, u.username, u.email),
           cookies := [CookieOp.setTok refresh] })
      else (s, { status := 401, message := "Invalid credentials" })

/-! ## Stateless verify middleware (`server/middleware/auth.js`) -/

/-- The `auth` middleware: reads the bearer token from the Authorization
header (`none` models an absent or malformed header) and runs `jwt.verify`
with the access secret.  Its inputs are only the header and the clock: the
user store is not an argument, exactly as the source reads no database. -/
def auth (bearer : Option Tok) (now : Nat) : Except Resp Nat :=
  match bearer with
  | none => Except.error { status := 401, message := "No token" }
  | some t =>
    match verify t TokKind.access now with
    | some uid => Except.ok uid
    | none => Except.error { status := 401, message := "Invalid token" }

/-- Status a protected snippet route answers with: every route in
`server/routes/snippets.js` runs `auth` first, and the route body executes
only when the middleware succeeds.  The store is in scope for the route body
but, as in the source, the gating decision never reads it. -/
def protectedProbe (_s : Store) (bearer : Option Tok) (now : Nat) : Nat :=
  match auth bearer now with
  | Except.ok _ => 200
  | Except.error r => r.status

/-! ## Client session agent (`src/client/src/lib/api.js`)

State of the module-scoped interceptor machinery, observed at event-loop
granularity: the browser is single-threaded, so each interceptor run and each
continuation executes atomically between suspension points.  Requests are
identified by numbers.  `retryTag` is the set of requests whose config
carries `_retry = true`; `initiator` is the request whose interceptor run is
currently suspended awaiting `refreshClient.post`; `waitQueue` is the
module-level queue of pending continuations; `retriedWith` records each
replayed request together with the bearer token the replay carried;
`surfaced` records requests whose error was propagated to the caller. -/
structure ClientSt where
  isRefreshing : Bool := false
  waitQueue : List Nat := []
  refreshCalls : Nat := 0
  storedToken : Option Tok := none
  retryTag : List Nat := []
  retriedWith : List (Nat × Tok) := []
  surfaced : List Nat := []
  initiator : Option Nat := none
deriving DecidableEq

/-- Events the interceptor machinery reacts to: a request observes a 401
response, or the in-flight `refreshClient.post` settles. -/
inductive CEv
  | resp401 (i : Nat)
  | refreshDone (t : Tok)
  | refreshFailed
deriving DecidableEq

/-- One atomic step of the response interceptor, faithful to the control flow
of `api.interceptors.response.use`:

* a 401 for a request already tagged `_retry` is rejected immediately;
* a 401 while a refresh is in flight tags the request and pushes its
  continuation onto `waitQueue` (the push inside the Promise executor runs
  synchronously);
* a 401 with no refresh in flight tags the request, sets `isRefreshing`, and
  issues the single `refreshClient.post`; that requests own enqueue happens
  only after the awaited call settles;
* when the refresh resolves, the initiators continuation stores the token,
  clears the flag, resolves the whole queue (each queued request replays with
  the new bearer), and only then pushes its own continuation onto the now
  empty queue, where nothing will ever resolve it;
* when the refresh rejects, the queue is rejected, client auth state is
  cleared, and the initiators error is surfaced. -/
def step (st : ClientSt) (e : CEv) : ClientSt :=
  match e with
  | CEv.resp401 i =>
    if i ∈ st.retryTag then { st with surfaced := st.surfaced ++ [i] }
    else if st.isRefreshing then
      { st with retryTag := st.retryTag ++ [i], waitQueue := st.waitQueue ++ [i] }
    else
      { st with retryTag := st.retryTag ++ [i], isRefreshing := true,
                refreshCalls := st.refreshCalls + 1, initiator := some i }
  | CEv.refreshDone t =>
    match st.initiator with
    | some i0 =>
      { st with storedToken := some t, isRefreshing := false,
                retriedWith := st.retriedWith ++ st.waitQueue.map (fun j => (j, t)),
                waitQueue := [i0], initiator := none }
    | none => st
  | CEv.refreshFailed =>
    match st.initiator with
    | some i0 =>
      { st with isRefreshing := false, storedToken := none,
                surfaced := st.surfaced ++ st.waitQueue ++ [i0],
                waitQueue := [], initiator := none }
    | none => st

/-- Fresh module state at page load. -/
def initSt : ClientSt := {}

/-- The single-expiry-window scenario: the listed requests each receive a 401
(in order, all within the window, none previously retried), then the one
in-flight refresh call resolves with token `t`. -/
def runScenario (reqs : List Nat) (t : Tok) : ClientSt :=
  step ((reqs.map CEv.resp401).foldl step initSt) (CEv.refreshDone t)

/-! ## Store lemmas -/

/-- Updating a stored user rewrites what `findById` returns for that id. -/
theorem findById_updateUser (s : Store) (uid : Nat) (u2 : UserRec)
    (h : (findById s uid).isSome) :
    findById (updateUser s uid u2) uid = some u2 := by
  induction s with
  | nil => simp [findById] at h
  | cons p rest ih =>
    obtain ⟨k, v⟩ := p
    by_cases hk : k = uid
    · subst hk
      simp [findById, updateUser]
    · simp [findById, updateUser, hk] at h ⊢
      exact ih h

/-- A user found by email is also found by the id returned. -/
theorem findById_isSome_of_findByEmail (s : Store) (e : String) (uid : Nat)
    (u : UserRec) (h : findByEmail s e = some (uid, u)) :
    (findById s uid).isSome := by
  induction s with
  | nil => simp [findByEmail] at h
  | cons p rest ih =>
    obtain ⟨k, v⟩ := p
    by_cases hk : k = uid
    · subst hk
      simp [findById]
    · by_cases he : v.email = e
      · simp [findByEmail, he] at h
        exact absurd h.1 hk
      · simp [findByEmail, he] at h
        simp [findById, hk]
        exact ih h

/-- The record `findByEmail` returns carries the searched email. -/
theorem findByEmail_email (s : Store) (e : String) (uid : Nat) (u : UserRec)
    (h : findByEmail s e = some (uid, u)) : u.email = e := by
  induction s with
  | nil => simp [findByEmail] at h
  | cons p rest ih =>
    obtain ⟨k, v⟩ := p
    by_cases he : v.email = e
    · simp [findByEmail, he] at h
      rw [← h.2]
      exact he
    · simp [findByEmail, he] at h
      exact ih h

/-- Updating the found user with a record that keeps its email leaves the
email lookup pointing at the updated record. -/
theorem findByEmail_updateUser (s : Store) (e : String) (uid : Nat)
    (u u2 : UserRec) (h : findByEmail s e = some (uid, u))
    (he : u2.email = u.email) :
    findByEmail (updateUser s uid u2) e = some (uid, u2) := by
  have hue : u.email = e := findByEmail_email s e uid u h
  induction s with
  | nil => simp [findByEmail] at h
  | cons p rest ih =>
    obtain ⟨k, v⟩ := p
    by_cases hve : v.email = e
    · simp [findByEmail, hve] at h
      obtain ⟨hk, hv⟩ := h
      subst hk
      simp [updateUser, findByEmail, he, hue]
    · by_cases hk : k = uid
      · subst hk
        simp [updateUser, findByEmail, he, hue]
      · simp [findByEmail, hve] at h
        simp [updateUser, findByEmail, hk, hve]
        exact ih h

/-- A record appended under key `k` makes `findById _ k` succeed. -/
theorem findById_append_isSome (s : Store) (k : Nat) (v : UserRec) :
    (findById (s ++ [(k, v)]) k).isSome := by
  induction s with
  | nil => simp [findById]
  | cons p rest ih =>
    obtain ⟨k2, v2⟩ := p
    by_cases hk : k2 = k
    · subst hk
      simp [findById]
    · simpa [findById, hk] using ih

/-! ## Claim theorems -/

/-- C1 (amended).  After a successful `refresh()` that presented T_old and
produced T_new, a later `refresh()` presenting T_old fails with 401 —
provided the rotation was signed at a different timestamp than T_old
(`iat ≠ n1`), which is exactly what makes T_new a different token string.
Without that proviso the claim fails, see the counterexample: JWT signing is
deterministic, so a refresh in the same second as the issuance of T_old
returns T_new = T_old. -/
theorem c1_rotation_invalidates (s : Store) (uid iat exp n1 n2 : Nat)
    (h200 : ((refreshToken s (some (Tok.signed TokKind.refresh uid iat exp)) n1).2).status = 200)
    (hdiff : iat ≠ n1) :
    ((refreshToken (refreshToken s (some (Tok.signed TokKind.refresh uid iat exp)) n1).1
        (some (Tok.signed TokKind.refresh uid iat exp)) n2).2).status = 401 := by
  have hverOf : ∀ m : Nat, m < exp →
      verify (Tok.signed TokKind.refresh uid iat exp) TokKind.refresh m = some uid := by
    intro m hm
    simp [verify, hm]
  have hverNone : ∀ m : Nat, ¬ m < exp →
      verify (Tok.signed TokKind.refresh uid iat exp) TokKind.refresh m = none := by
    intro m hm
    simp [verify, hm]
  by_cases hlt : n1 < exp
  · rcases hf : findById s uid with _ | u
    · simp only [refreshToken, hverOf n1 hlt, hf] at h200
      simp at h200
    · simp only [refreshToken, hverOf n1 hlt, hf] at h200
      by_cases hrt : u.refreshToken = some (Tok.signed TokKind.refresh uid iat exp)
      · have hfirst : (refreshToken s (some (Tok.signed TokKind.refresh uid iat exp)) n1).1 =
            updateUser s uid { u with refreshToken := some (signRefresh uid n1) } := by
          simp only [refreshToken, hverOf n1 hlt, hf, if_pos hrt]
        rw [hfirst]
        have hfind2 : findById
            (updateUser s uid { u with refreshToken := some (signRefresh uid n1) }) uid =
            some { u with refreshToken := some (signRefresh uid n1) } :=
          findById_updateUser s uid _ (by rw [hf]; rfl)
        by_cases hlt2 : n2 < exp
        · have hne : ¬ (({ u with refreshToken := some (signRefresh uid n1) } : UserRec).refreshToken =
              some (Tok.signed TokKind.refresh uid iat exp)) := by
            simp only [signRefresh]
            intro hcon
            injection hcon with hcon2
            injection hcon2 with _ _ hiat _
            exact hdiff hiat.symm
          simp only [refreshToken, hverOf n2 hlt2, hfind2, if_neg hne]
        · simp only [refreshToken, hverNone n2 hlt2]
      · rw [if_neg hrt] at h200
        simp at h200
  · simp only [refreshToken, hverNone n1 hlt] at h200
    simp at h200

/-- C1, counterexample to the claim as stated: a store whose user holds the
refresh token signed at second 10; the refresh call also happens at second
10, succeeds, and (deterministic signing) stores T_new = T_old, so a later
refresh presenting T_old succeeds with 200 instead of failing with 401. -/
theorem c1_counterexample :
    (let tOld := Tok.signed TokKind.refresh 1 10 (10 + refreshTTL);
     let u : UserRec := { username := "alice", email := "a@x.com",
                          passwordHash := Hash.bcrypt "pw", refreshToken := some tOld };
     let s : Store := [(1, u)];
     ((refreshToken s (some tOld) 10).2).status = 200 ∧
     ((refreshToken (refreshToken s (some tOld) 10).1 (some tOld) 15).2).status = 200) := by
  decide

/-- C1, witness: the amended theorem applied at a concrete store, with the
first refresh at second 11 on a token issued at second 10. -/
theorem c1_rotation_invalidates_witness :
    ((refreshToken
        (refreshToken
          [(1, { username := "a", email := "a@x", passwordHash := Hash.bcrypt "p",
                 refreshToken := some (Tok.signed TokKind.refresh 1 10 (10 + refreshTTL)) })]
          (some (Tok.signed TokKind.refresh 1 10 (10 + refreshTTL))) 11).1
        (some (Tok.signed TokKind.refresh 1 10 (10 + refreshTTL))) 12).2).status = 401 :=
  c1_rotation_invalidates _ 1 10 (10 + refreshTTL) 11 12 (by decide) (by decide)

/-- C3 (amended).  Register, login and refresh each overwrite
`user.refreshToken` with the newly signed value (never append), so at most
one token string equals the stored value at any time; and logging in twice
invalidates the first logins refresh token — provided the two logins sign at
different timestamps (`n1 ≠ n2`), since deterministic signing makes two
same-second logins return the identical token (see the counterexample). -/
theorem c3_single_refresh_token (s : Store) (email pw : String) (uid : Nat)
    (u : UserRec) (n1 n2 n3 : Nat)
    (hfind : findByEmail s email = some (uid, u))
    (hpw : bcryptCompare pw u.passwordHash = true)
    (hdiff : n1 ≠ n2) :
    rtOf (loginUser s email pw n1).1 uid = some (signRefresh uid n1) ∧
    rtOf (loginUser (loginUser s email pw n1).1 email pw n2).1 uid =
      some (signRefresh uid n2) ∧
    ((refreshToken (loginUser (loginUser s email pw n1).1 email pw n2).1
        (some (signRefresh uid n1)) n3).2).status = 401 ∧
    (∀ (s3 : Store) (v : Nat) (t1 t2 : Tok),
      rtOf s3 v = some t1 → rtOf s3 v = some t2 → t1 = t2) ∧
    (∀ (un em pw2 : String) (newId n4 : Nat),
      ((registerUser s un em pw2 newId n4).2).status = 201 →
      rtOf (registerUser s un em pw2 newId n4).1 newId = some (signRefresh newId n4)) ∧
    (∀ (ck : Option Tok) (n5 : Nat),
      ((refreshToken s ck n5).2).status = 200 →
      ∃ v2, rtOf (refreshToken s ck n5).1 v2 = some (signRefresh v2 n5)) := by
  obtain ⟨sMid, hsMid⟩ : ∃ x : Store,
      updateUser s uid { u with refreshToken := some (signRefresh uid n1) } = x := ⟨_, rfl⟩
  have hs1 : (loginUser s email pw n1).1 = sMid := by
    rw [← hsMid]
    simp only [loginUser, hfind, if_pos hpw]
  have hsomeId : (findById s uid).isSome :=
    findById_isSome_of_findByEmail s email uid u hfind
  have hfid1 : findById sMid uid =
      some { u with refreshToken := some (signRefresh uid n1) } := by
    rw [← hsMid]
    exact findById_updateUser s uid _ hsomeId
  have hfe1 : findByEmail sMid email =
      some (uid, { u with refreshToken := some (signRefresh uid n1) }) := by
    rw [← hsMid]
    exact findByEmail_updateUser s email uid u _ hfind rfl
  have hs2 : (loginUser sMid email pw n2).1 =
      updateUser sMid uid { u with refreshToken := some (signRefresh uid n2) } := by
    simp only [loginUser, hfe1, if_pos hpw]
  have hfid2 : findById (loginUser sMid email pw n2).1 uid =
      some { u with refreshToken := some (signRefresh uid n2) } := by
    rw [hs2]
    exact findById_updateUser sMid uid _ (by rw [hfid1]; rfl)
  rw [hs1]
  refine ⟨by simp [rtOf, hfid1], by simp [rtOf, hfid2], ?_, ?_, ?_, ?_⟩
  · by_cases hlt : n3 < n1 + refreshTTL
    · have hver : verify (signRefresh uid n1) TokKind.refresh n3 = some uid := by
        simp [signRefresh, verify, hlt]
      have hne : ¬ (({ u with refreshToken := some (signRefresh uid n2) } : UserRec).refreshToken =
          some (signRefresh uid n1)) := by
        simp only [signRefresh]
        intro hcon
        injection hcon with hcon2
        injection hcon2 with _ _ hi _
        exact hdiff hi.symm
      simp only [refreshToken, hver, hfid2, if_neg hne]
    · have hver : verify (signRefresh uid n1) TokKind.refresh n3 = none := by
        simp [signRefresh, verify, hlt]
      simp only [refreshToken, hver]
  · intro s3 v t1 t2 ha hb
    rw [ha] at hb
    exact Option.some.inj hb
  · intro un em pw2 newId n4 hstat
    by_cases hempty : un = "" ∨ em = "" ∨ pw2 = ""
    · simp [registerUser, hempty] at hstat
    · rcases hfe : findByEmail s em with _ | p
      · simp only [registerUser, if_neg hempty, hfe]
        have hins := findById_updateUser
            (s ++ [(newId, ({ username := un, email := em,
                              passwordHash := Hash.bcrypt pw2 } : UserRec))]) newId
            { username := un, email := em, passwordHash := Hash.bcrypt pw2,
              refreshToken := some (signRefresh newId n4) }
            (findById_append_isSome s newId _)
        simp [rtOf, hins]
      · simp [registerUser, if_neg hempty, hfe] at hstat
  · intro ck n5 hstat
    rcases ck with _ | t
    · simp [refreshToken] at hstat
    · rcases hv : verify t TokKind.refresh n5 with _ | uid2
      · simp [refreshToken, hv] at hstat
      · rcases hf2 : findById s uid2 with _ | u2
        · simp [refreshToken, hv, hf2] at hstat
        · by_cases hrt2 : u2.refreshToken = some t
          · refine ⟨uid2, ?_⟩
            have hupd := findById_updateUser s uid2
              { u2 with refreshToken := some (signRefresh uid2 n5) } (by rw [hf2]; rfl)
            simp only [refreshToken, hv, hf2, if_pos hrt2]
            simp [rtOf, hupd]
          · simp [refreshToken, hv, hf2, hrt2] at hstat

/-- C3, counterexample to the claim as stated: two logins in the same second
issue the identical refresh token, so the token issued by the first login is
still accepted by `refresh()` after the second login. -/
theorem c3_counterexample :
    (let u : UserRec := { username := "a", email := "a@x", passwordHash := Hash.bcrypt "p" };
     let s : Store := [(1, u)];
     let s1 := (loginUser s "a@x" "p" 5).1;
     ((loginUser s "a@x" "p" 5).2).status = 200 ∧
     ((loginUser s1 "a@x" "p" 5).2).status = 200 ∧
     ((refreshToken (loginUser s1 "a@x" "p" 5).1 (some (signRefresh 1 5)) 6).2).status = 200) := by
  decide

/-- C3, witness: the amended theorem applied to a one-user store with the two
logins at seconds 5 and 6. -/
theorem c3_single_refresh_token_witness :
    (let u : UserRec := { username := "a", email := "a@x", passwordHash := Hash.bcrypt "p" };
     let s : Store := [(1, u)];
     rtOf (loginUser s "a@x" "p" 5).1 1 = some (signRefresh 1 5) ∧
     rtOf (loginUser (loginUser s "a@x" "p" 5).1 "a@x" "p" 6).1 1 = some (signRefresh 1 6) ∧
     ((refreshToken (loginUser (loginUser s "a@x" "p" 5).1 "a@x" "p" 6).1
        (some (signRefresh 1 5)) 7).2).status = 401 ∧
     (∀ (s3 : Store) (v : Nat) (t1 t2 : Tok),
       rtOf s3 v = some t1 → rtOf s3 v = some t2 → t1 = t2) ∧
     (∀ (un em pw2 : String) (newId n4 : Nat),
       ((registerUser s un em pw2 newId n4).2).status = 201 →
       rtOf (registerUser s un em pw2 newId n4).1 newId = some (signRefresh newId n4)) ∧
     (∀ (ck : Option Tok) (n5 : Nat),
       ((refreshToken s ck n5).2).status = 200 →
       ∃ v2, rtOf (refreshToken s ck n5).1 v2 = some (signRefresh v2 n5))) :=
  c3_single_refresh_token
    [(1, { username := "a", email := "a@x", passwordHash := Hash.bcrypt "p" })]
    "a@x" "p" 1 { username := "a", email := "a@x", passwordHash := Hash.bcrypt "p" }
    5 6 7 (by decide) (by decide) (by decide)

/-- C4 (amended).  All three refresh variants answer 401 when the `rt`
cookie is absent.  When verification of the presented cookie fails, all
three answer 401; the V2 and P16 variants additionally clear the `rt`
cookie, while the V1 variant sends no cookie mutation at all (see the
counterexample). -/
theorem c4_refresh_failure_modes (s : Store) (now : Nat) (t : Tok)
    (hv : verify t TokKind.refresh now = none) :
    ((refreshToken s none now).2).status = 401 ∧
    ((refreshTokenV2 s none now).2).status = 401 ∧
    ((refreshTokenP16 s none now).2).status = 401 ∧
    ((refreshToken s (some t) now).2).status = 401 ∧
    ((refreshToken s (some t) now).2).cookies = [] ∧
    ((refreshTokenV2 s (some t) now).2).status = 401 ∧
    ((refreshTokenV2 s (some t) now).2).cookies = [CookieOp.clear] ∧
    ((refreshTokenP16 s (some t) now).2).status = 401 ∧
    ((refreshTokenP16 s (some t) now).2).cookies = [CookieOp.clear] := by
  refine ⟨rfl, rfl, rfl, ?_, ?_, ?_, ?_, ?_, ?_⟩ <;>
    simp [refreshToken, refreshTokenV2, refreshTokenP16, hv]

/-- C4, counterexample to the claim as stated: the V1 `refreshToken`
handler answers 401 on a cookie that fails verification but does not clear
the `rt` cookie, contradicting the "AND clears the rt cookie" part. -/
theorem c4_counterexample :
    ((refreshToken [] (some (Tok.garbage "bad")) 0).2).status = 401 ∧
    ((refreshToken [] (some (Tok.garbage "bad")) 0).2).cookies = [] := by
  decide

/-- C4, witness: the amended theorem applied to the empty store and an
unverifiable cookie value. -/
theorem c4_refresh_failure_modes_witness :
    ((refreshToken [] none 0).2).status = 401 ∧
    ((refreshTokenV2 [] none 0).2).status = 401 ∧
    ((refreshTokenP16 [] none 0).2).status = 401 ∧
    ((refreshToken [] (some (Tok.garbage "z")) 0).2).status = 401 ∧
    ((refreshToken [] (some (Tok.garbage "z")) 0).2).cookies = [] ∧
    ((refreshTokenV2 [] (some (Tok.garbage "z")) 0).2).status = 401 ∧
    ((refreshTokenV2 [] (some (Tok.garbage "z")) 0).2).cookies = [CookieOp.clear] ∧
    ((refreshTokenP16 [] (some (Tok.garbage "z")) 0).2).status = 401 ∧
    ((refreshTokenP16 [] (some (Tok.garbage "z")) 0).2).cookies = [CookieOp.clear] :=
  c4_refresh_failure_modes [] 0 (Tok.garbage "z") (by decide)

/-- C5.  The `auth` middleware accepts a signed access token purely on
signature and embedded expiry: it accepts until `iat + accessTTL`, the
gating status of a protected route does not depend on the store at all, and
in particular it is unchanged by an arbitrary `refreshToken` rotation or an
arbitrary `logoutUser` revocation. -/
theorem c5_access_token_stateless (uid iat now rnow : Nat) (s : Store)
    (cookie lcook : Option Tok) (dbT : Bool)
    (hnow : now < iat + accessTTL) :
    auth (some (signAccess uid iat)) now = Except.ok uid ∧
    protectedProbe (refreshToken s cookie rnow).1 (some (signAccess uid iat)) now = 200 ∧
    protectedProbe (logoutUser s lcook dbT).1 (some (signAccess uid iat)) now = 200 ∧
    (∀ (s1 s2 : Store) (b : Option Tok) (m : Nat),
      protectedProbe s1 b m = protectedProbe s2 b m) := by
  have hau : auth (some (signAccess uid iat)) now = Except.ok uid := by
    simp [auth, verify, signAccess, hnow]
  exact ⟨hau, by simp [protectedProbe, hau], by simp [protectedProbe, hau],
    fun _ _ _ _ => rfl⟩

/-- C5, witness: a token issued at second 0 still passes the middleware at
second 10 over a store that just served a refresh and a logout. -/
theorem c5_access_token_stateless_witness :
    auth (some (signAccess 1 0)) 10 = Except.ok 1 ∧
    protectedProbe (refreshToken [] none 0).1 (some (signAccess 1 0)) 10 = 200 ∧
    protectedProbe (logoutUser [] none false).1 (some (signAccess 1 0)) 10 = 200 ∧
    (∀ (s1 s2 : Store) (b : Option Tok) (m : Nat),
      protectedProbe s1 b m = protectedProbe s2 b m) :=
  c5_access_token_stateless 1 0 10 0 [] none none false (by decide)

/-- C6.  A 401 for a request already tagged with the retry marker is only
surfaced: the step changes nothing in the interceptor state except appending
the request to the surfaced list — no second refresh call, no enqueue, no
second replay. -/
theorem c6_no_second_retry (st : ClientSt) (i : Nat) (h : i ∈ st.retryTag) :
    step st (CEv.resp401 i) = { st with surfaced := st.surfaced ++ [i] } := by
  simp [step, h]

/-- C6, witness: the theorem applied to a state whose request 4 has already
been retried. -/
theorem c6_no_second_retry_witness :
    step { retryTag := [4] } (CEv.resp401 4) = { retryTag := [4], surfaced := [4] } :=
  c6_no_second_retry { retryTag := [4] } 4 (by decide)

/-- C7.  `logoutUser` never fails the client: for an absent cookie, an
undecodable cookie, or a throwing DB write, the response is 200 with an ok
body and the `rt` cookie cleared; and when the cookie decodes to a known
user id and the write succeeds, that users stored refresh token is cleared. -/
theorem c7_logout_never_fails (s : Store) (cookie : Option Tok) (dbT : Bool) :
    ((logoutUser s cookie dbT).2).status = 200 ∧
    ((logoutUser s cookie dbT).2).ok = true ∧
    CookieOp.clear ∈ ((logoutUser s cookie dbT).2).cookies ∧
    (∀ (t : Tok) (uid : Nat), cookie = some t → decode t = some uid → dbT = false →
      (findById s uid).isSome → rtOf (logoutUser s cookie dbT).1 uid = none) := by
  rcases cookie with _ | t
  · refine ⟨rfl, rfl, by simp [logoutUser], ?_⟩
    intro t uid he
    cases he
  · rcases hd : decode t with _ | uid2
    · refine ⟨by simp [logoutUser, hd], by simp [logoutUser, hd], by simp [logoutUser, hd], ?_⟩
      intro t2 uid he hdec
      cases he
      rw [hd] at hdec
      cases hdec
    · cases dbT
      · refine ⟨by simp [logoutUser, hd], by simp [logoutUser, hd], by simp [logoutUser, hd], ?_⟩
        intro t2 uid he hdec _ hex
        cases he
        rw [hd] at hdec
        injection hdec with huid
        subst huid
        rcases hfe : findById s uid2 with _ | u
        · rw [hfe] at hex
          cases hex
        · have hupd := findById_updateUser s uid2 { u with refreshToken := none }
            (by rw [hfe]; rfl)
          simp [logoutUser, hd, rtOf, clearRefresh, hfe, hupd]
      · refine ⟨by simp [logoutUser, hd], by simp [logoutUser, hd], by simp [logoutUser, hd], ?_⟩
        intro t2 uid he hdec hfalse
        simp at hfalse

/-- C7, witness: the theorem applied to a one-user store holding a refresh
token, logging out with that cookie. -/
theorem c7_logout_never_fails_witness :
    (let u : UserRec := { username := "a", email := "a@x", passwordHash := Hash.bcrypt "p",
                          refreshToken := some (signRefresh 1 0) };
     let s : Store := [(1, u)];
     ((logoutUser s (some (signRefresh 1 0)) false).2).status = 200 ∧
     ((logoutUser s (some (signRefresh 1 0)) false).2).ok = true ∧
     CookieOp.clear ∈ ((logoutUser s (some (signRefresh 1 0)) false).2).cookies ∧
     (∀ (t : Tok) (uid : Nat), some (signRefresh 1 0) = some t → decode t = some uid →
       false = false → (findById s uid).isSome →
       rtOf (logoutUser s (some (signRefresh 1 0)) false).1 uid = none)) :=
  c7_logout_never_fails
    [(1, { username := "a", email := "a@x", passwordHash := Hash.bcrypt "p",
           refreshToken := some (signRefresh 1 0) })]
    (some (signRefresh 1 0)) false

/-- C8.  In both cited login variants, a lookup miss and a wrong password
produce literally identical responses (same status, same generic body, no
cookie, no token) and leave the store untouched, so the client cannot tell
whether the account exists.  The P16 guards only require the attempt to pass
the non-empty-field check that runs before any credential is consulted. -/
theorem c8_uniform_invalid_credentials (s : Store) (e1 pw1 e2 pw2 : String)
    (uid : Nat) (u : UserRec) (n1 n2 : Nat)
    (h1 : findByEmail s e1 = none)
    (h2 : findByEmail s e2 = some (uid, u))
    (h3 : bcryptCompare pw2 u.passwordHash = false)
    (g1 : ¬ jsTrim e1 = "") (g2 : ¬ pw1 = "") (g3 : ¬ jsTrim e2 = "") (g4 : ¬ pw2 = "")
    (h1p : findByEmail s (jsTrim (jsToLower e1)) = none)
    (h2p : findByEmail s (jsTrim (jsToLower e2)) = some (uid, u)) :
    ((loginUser s e1 pw1 n1).2 = (loginUser s e2 pw2 n2).2 ∧
     (loginUser s e1 pw1 n1).1 = s ∧ (loginUser s e2 pw2 n2).1 = s) ∧
    ((loginUserP16 s e1 pw1 n1).2 = (loginUserP16 s e2 pw2 n2).2 ∧
     (loginUserP16 s e1 pw1 n1).1 = s ∧ (loginUserP16 s e2 pw2 n2).1 = s) := by
  have hng1 : ¬ (jsTrim e1 = "" ∨ pw1 = "") := not_or.2 ⟨g1, g2⟩
  have hng2 : ¬ (jsTrim e2 = "" ∨ pw2 = "") := not_or.2 ⟨g3, g4⟩
  refine ⟨⟨?_, ?_, ?_⟩, ⟨?_, ?_, ?_⟩⟩ <;>
    simp [loginUser, loginUserP16, h1, h2, h3, hng1, hng2, h1p, h2p]

/-- C8, witness: a one-user store; the first attempt uses an unknown email,
the second the existing email with a wrong password. -/
theorem c8_uniform_invalid_credentials_witness :
    (let s : Store := [(1, { username := "alice", email := "a@x",
                             passwordHash := Hash.bcrypt "p" })];
     ((loginUser s "b@x" "q" 3).2 = (loginUser s "a@x" "wrong" 4).2 ∧
      (loginUser s "b@x" "q" 3).1 = s ∧ (loginUser s "a@x" "wrong" 4).1 = s) ∧
     ((loginUserP16 s "b@x" "q" 3).2 = (loginUserP16 s "a@x" "wrong" 4).2 ∧
      (loginUserP16 s "b@x" "q" 3).1 = s ∧ (loginUserP16 s "a@x" "wrong" 4).1 = s)) :=
  c8_uniform_invalid_credentials
    [(1, { username := "alice", email := "a@x", passwordHash := Hash.bcrypt "p" })]
    "b@x" "q" "a@x" "wrong" 1
    { username := "alice", email := "a@x", passwordHash := Hash.bcrypt "p" } 3 4
    (by decide) (by decide) (by decide) (by decide) (by decide) (by decide) (by decide)
    (by decide) (by decide)

/-- C9 (amended).  The V1 `handleError` always sends the generic 500 shape,
and the V2/P16 handlers send it whenever `isProd` holds; but in
non-production deployments the V2/P16 handlers put `err.message` in the body
and spread `err.stack` into it, so the "in any deployment environment" part
of the claim fails (see the counterexample). -/
theorem c9_generic_500 (tag : String) (e : ErrInfo) :
    handleError tag () = { status := 500, message := "Server error" } ∧
    handleErrorV2 true e = { status := 500, message := "Server error" } ∧
    handleErrorP16 true e = { status := 500, message := "Server error" } ∧
    (handleErrorV2 false e).status = 500 ∧
    (handleErrorP16 false e).status = 500 ∧
    (handleErrorV2 false e).message = e.message ∧
    (handleErrorV2 false e).errStack = some e.stack ∧
    (handleErrorP16 false e).message = e.message ∧
    (handleErrorP16 false e).errStack = some e.stack := by
  exact ⟨rfl, rfl, rfl, rfl, rfl, rfl, rfl, rfl, rfl⟩

/-- C9, counterexample to the claim as stated: in a non-production
deployment the P16 outermost handler attaches the exception message and the
stack trace to the client-visible 500 body. -/
theorem c9_counterexample :
    (handleErrorP16 false { message := "connect ECONNREFUSED", stack := "at Server.emit" }).errStack ≠ none ∧
    (handleErrorP16 false { message := "connect ECONNREFUSED", stack := "at Server.emit" }).message ≠ "Server error" := by
  decide

/-- C10.  After a successful register, login, or refresh (V1 controllers),
the single `rt` cookie set in the response carries exactly the token just
persisted as `user.refreshToken` for the authenticated user. -/
theorem c10_cookie_store_consistency (s : Store) (un em pw : String) (newId n0 : Nat)
    (email2 pw2 : String) (uid : Nat) (u : UserRec) (n1 : Nat) (ck : Option Tok) (n2 : Nat)
    (hreg : ((registerUser s un em pw newId n0).2).status = 201)
    (hfind : findByEmail s email2 = some (uid, u))
    (hpw : bcryptCompare pw2 u.passwordHash = true)
    (href : ((refreshToken s ck n2).2).status = 200) :
    (∃ r, ((registerUser s un em pw newId n0).2).cookies = [CookieOp.setTok r] ∧
      rtOf (registerUser s un em pw newId n0).1 newId = some r) ∧
    (∃ r, ((loginUser s email2 pw2 n1).2).cookies = [CookieOp.setTok r] ∧
      rtOf (loginUser s email2 pw2 n1).1 uid = some r) ∧
    (∃ v r, ((refreshToken s ck n2).2).cookies = [CookieOp.setTok r] ∧
      rtOf (refreshToken s ck n2).1 v = some r) := by
  refine ⟨?_, ?_, ?_⟩
  · by_cases hempty : un = "" ∨ em = "" ∨ pw = ""
    · simp [registerUser, hempty] at hreg
    · rcases hfe : findByEmail s em with _ | p
      · refine ⟨signRefresh newId n0, ?_, ?_⟩
        · simp [registerUser, if_neg hempty, hfe]
        · simp only [registerUser, if_neg hempty, hfe]
          have hins := findById_updateUser
              (s ++ [(newId, ({ username := un, email := em,
                                passwordHash := Hash.bcrypt pw } : UserRec))]) newId
              { username := un, email := em, passwordHash := Hash.bcrypt pw,
                refreshToken := some (signRefresh newId n0) }
              (findById_append_isSome s newId _)
          simp [rtOf, hins]
      · simp [registerUser, if_neg hempty, hfe] at hreg
  · refine ⟨signRefresh uid n1, ?_, ?_⟩
    · simp [loginUser, hfind, hpw]
    · have hupd := findById_updateUser s uid
        { u with refreshToken := some (signRefresh uid n1) }
        (findById_isSome_of_findByEmail s email2 uid u hfind)
      simp only [loginUser, hfind, if_pos hpw]
      simp [rtOf, hupd]
  · rcases ck with _ | t
    · simp [refreshToken] at href
    · rcases hv : verify t TokKind.refresh n2 with _ | uid2
      · simp [refreshToken, hv] at href
      · rcases hf2 : findById s uid2 with _ | u2
        · simp [refreshToken, hv, hf2] at href
        · by_cases hrt2 : u2.refreshToken = some t
          · refine ⟨uid2, signRefresh uid2 n2, ?_, ?_⟩
            · simp [refreshToken, hv, hf2, hrt2]
            · have hupd := findById_updateUser s uid2
                { u2 with refreshToken := some (signRefresh uid2 n2) } (by rw [hf2]; rfl)
              simp only [refreshToken, hv, hf2, if_pos hrt2]
              simp [rtOf, hupd]
          · simp [refreshToken, hv, hf2, hrt2] at href

/-- C10, witness: a store with user 1 logged in; register a fresh user 2,
log user 1 in again, and refresh with the stored cookie. -/
theorem c10_cookie_store_consistency_witness :
    (let u : UserRec := { username := "alice", email := "a@x",
                          passwordHash := Hash.bcrypt "p",
                          refreshToken := some (signRefresh 1 0) };
     let s : Store := [(1, u)];
     (∃ r, ((registerUser s "bob" "b@x" "q" 2 0).2).cookies = [CookieOp.setTok r] ∧
       rtOf (registerUser s "bob" "b@x" "q" 2 0).1 2 = some r) ∧
     (∃ r, ((loginUser s "a@x" "p" 3).2).cookies = [CookieOp.setTok r] ∧
       rtOf (loginUser s "a@x" "p" 3).1 1 = some r) ∧
     (∃ v r, ((refreshToken s (some (signRefresh 1 0)) 1).2).cookies = [CookieOp.setTok r] ∧
       rtOf (refreshToken s (some (signRefresh 1 0)) 1).1 v = some r)) :=
  c10_cookie_store_consistency
    [(1, { username := "alice", email := "a@x", passwordHash := Hash.bcrypt "p",
           refreshToken := some (signRefresh 1 0) })]
    "bob" "b@x" "q" 2 0 "a@x" "p" 1
    { username := "alice", email := "a@x", passwordHash := Hash.bcrypt "p",
      refreshToken := some (signRefresh 1 0) }
    3 (some (signRefresh 1 0)) 1
    (by decide) (by decide) (by decide) (by decide)

/-- C2, behaviour at the failing input.  Three concurrent requests (1 is the
initiator, 2 and 3 arrive while the refresh is in flight) each receive a 401
and the single refresh call then succeeds with a fresh token: exactly one
refresh call is made and requests 2 and 3 are each replayed once with the
same new token, but request 1 — whose continuation is pushed onto the wait
queue only after the queue has already been flushed — is left sitting in
`waitQueue`, neither retried nor surfaced.  This contradicts the claim that
every one of the N requests is eventually retried. -/
theorem c2_initiator_never_retried :
    (let t := signAccess 9 100;
     let fin := runScenario [1, 2, 3] t;
     fin.refreshCalls = 1 ∧
     fin.retriedWith = [(2, t), (3, t)] ∧
     fin.waitQueue = [1] ∧
     fin.surfaced = [] ∧
     fin.storedToken = some t) := by
  decide

end AuthCore
